import Mathlib

/-!
Verification of the student-management CRUD service (`src/main.py`).

The service is a FastAPI application over a single MySQL table
`students(id PK AUTO_INCREMENT, name, age, address, email UNIQUE)`.
We embed the database state as a list of rows plus the auto-increment
counter, and translate each route handler of `main.py` into a pure
function from request data and database state to a response and the
new database state.

Framework behaviour that the handlers rely on is made explicit:
  * pydantic parses the request body into `StudentCreate` before the
    handler runs; `email : EmailStr` enforces email syntax, and a parse
    failure is answered with HTTP 422 without touching the database;
  * the `UNIQUE` constraint on the `email` column makes `db.commit()`
    raise an `IntegrityError` when an insert or update would duplicate
    an email of a different row; no handler catches it, and the
    framework answers an unhandled exception with HTTP 500;
  * `HTTPException(status_code, detail)` is answered with that status.
-/

namespace StudentApp

/-- Row of the `students` table (the SQLAlchemy `Student` model):
`id` integer primary key, `name`, `age`, `address`, `email` all non-null,
`email` additionally `UNIQUE`. -/
structure Student where
  id : Nat
  name : String
  age : Int
  address : String
  email : String
deriving DecidableEq, Repr

/-- Request body schema (the pydantic `StudentCreate` model): `name : str`,
`age : int`, `address : str`, `email : EmailStr`. -/
structure StudentCreate where
  name : String
  age : Int
  address : String
  email : String
deriving DecidableEq, Repr

/-- Database state: the rows of the `students` table in storage order, and
the next value of the `AUTO_INCREMENT` id counter. -/
structure DB where
  rows : List Student
  nextId : Nat
deriving DecidableEq, Repr

/-- Table invariants maintained by MySQL: `id` is a primary key (no two rows
share an id) and the auto-increment counter is strictly above every assigned
id. -/
def DB.wf (db : DB) : Prop :=
  (db.rows.map Student.id).Nodup ∧ ∀ r ∈ db.rows, r.id < db.nextId

instance (db : DB) : Decidable db.wf := by
  unfold DB.wf; infer_instance

/-- Outcome of one HTTP request, as seen by the caller. `ok` carries the
response body; `httpError` is a raised `HTTPException` (status, detail);
`validationError` is a pydantic body-parse failure; `constraintViolation`
is an `IntegrityError` escaping from `db.commit()`. -/
inductive Result (α : Type) where
  | ok : α → Result α
  | httpError : Nat → String → Result α
  | validationError : Result α
  | constraintViolation : Result α
deriving DecidableEq, Repr

/-- HTTP status code of a request outcome. A pydantic validation failure is
answered 422 by FastAPI; an `IntegrityError` is caught by no handler in
`main.py`, so the framework answers 500 (internal server error). -/
def Result.status {α : Type} : Result α → Nat
  | .ok _ => 200
  | .httpError code _ => code
  | .validationError => 422
  | .constraintViolation => 500

/-- Modelled from the spec: the validation layer requires "`email` (text
matching standard email syntax)". The actual validator is pydantic's
`EmailStr`, which is framework code, not part of this repository; we model
the syntax check as: exactly one `@`, a nonempty local part, a nonempty
domain containing a dot, and no spaces. -/
def isValidEmail (s : String) : Bool :=
  let cs := s.toList
  cs.count '@' == 1 &&
  !(cs.takeWhile (fun c => c != '@')).isEmpty &&
  (let domain := (cs.dropWhile (fun c => c != '@')).drop 1
   !domain.isEmpty && domain.contains '.' && !cs.contains ' ')

/-- Handler of `GET /students/{student_id}`: look up the first row whose id
matches; raise `HTTPException(404, "Student not found")` when there is none,
otherwise return the row. Reads only, so no new state. -/
def get_student (student_id : Nat) (db : DB) : Result Student :=
  match db.rows.find? (fun r => r.id == student_id) with
  | none => .httpError 404 "Student not found"
  | some student => .ok student

/-- Handler of `POST /students` after body validation: build a row from the
body, `db.add` + `db.commit`. The commit assigns the auto-increment id; it
raises `IntegrityError` when the email duplicates an existing row's email
(the `UNIQUE` constraint). -/
def create_student (student : StudentCreate) (db : DB) : Result Student × DB :=
  if db.rows.any (fun r => r.email == student.email) then
    (.constraintViolation, db)
  else
    let db_student : Student :=
      { id := db.nextId, name := student.name, age := student.age,
        address := student.address, email := student.email }
    (.ok db_student, { rows := db.rows ++ [db_student], nextId := db.nextId + 1 })

/-- `POST /students`, body validation included: pydantic rejects a body whose
email is not syntactically valid with 422 before the handler runs. -/
def postStudents (body : StudentCreate) (db : DB) : Result Student × DB :=
  if isValidEmail body.email then create_student body db
  else (.validationError, db)

/-- Overwrite the data fields of a row with the request body, keeping the id
(the four assignments in `update_student`). -/
def replaceFields (s : StudentCreate) (r : Student) : Student :=
  { r with name := s.name, age := s.age, address := s.address, email := s.email }

/-- Replace, in storage order, the first row whose id matches: the effect of
mutating the ORM object returned by `.first()` and committing. -/
def setFirst (student_id : Nat) (s : StudentCreate) : List Student → List Student
  | [] => []
  | r :: rs =>
      if r.id == student_id then replaceFields s r :: rs
      else r :: setFirst student_id s rs

/-- Remove, in storage order, the first row whose id matches: the effect of
`db.delete` on the ORM object returned by `.first()`. -/
def eraseFirst (student_id : Nat) : List Student → List Student
  | [] => []
  | r :: rs => if r.id == student_id then rs else r :: eraseFirst student_id rs

/-- Handler of `PUT /students/{student_id}` after body validation: look the
row up (404 when absent), overwrite its four data fields and commit. The
commit raises `IntegrityError` when the new email equals the email of a
different row (the `UNIQUE` constraint). -/
def update_student (student_id : Nat) (updated_student : StudentCreate) (db : DB) :
    Result Student × DB :=
  match db.rows.find? (fun r => r.id == student_id) with
  | none => (.httpError 404 "Student not found", db)
  | some db_student =>
      if db.rows.any (fun q => q.id != student_id && q.email == updated_student.email) then
        (.constraintViolation, db)
      else
        (.ok (replaceFields updated_student db_student),
         { db with rows := setFirst student_id updated_student db.rows })

/-- `PUT /students/{student_id}`, body validation included. -/
def putStudent (student_id : Nat) (body : StudentCreate) (db : DB) :
    Result Student × DB :=
  if isValidEmail body.email then update_student student_id body db
  else (.validationError, db)

/-- Handler of `DELETE /students/{student_id}`: look the row up (404 when
absent), delete it, and answer with the confirmation message interpolating
the requested id. -/
def delete_student (student_id : Nat) (db : DB) : Result String × DB :=
  match db.rows.find? (fun r => r.id == student_id) with
  | none => (.httpError 404 "Student not found", db)
  | some _ =>
      (.ok ("Student with ID " ++ toString student_id ++ " deleted"),
       { db with rows := eraseFirst student_id db.rows })

/-- A freshly created table: no rows, auto-increment counter at 1. -/
def DB.empty : DB := { rows := [], nextId := 1 }

/-- Sample request body used in concrete witnesses (the worked example of the
spec). -/
def aliceBody : StudentCreate :=
  { name := "Alice", age := 20, address := "1 Main St", email := "alice@example.com" }

/-- The row the sample body receives when inserted into the fresh table. -/
def aliceRow : Student :=
  { id := 1, name := "Alice", age := 20, address := "1 Main St",
    email := "alice@example.com" }

/-- Overwriting the data fields leaves the primary key untouched. -/
theorem replaceFields_id (s : StudentCreate) (r : Student) :
    (replaceFields s r).id = r.id := rfl

/-- Overwriting the data fields twice with the same body is the same as
doing it once. -/
theorem replaceFields_idem (s : StudentCreate) (r : Student) :
    replaceFields s (replaceFields s r) = replaceFields s r := rfl

/-- After replacing the first row with a matching id, looking that id up
finds the replaced row. -/
theorem find?_setFirst (sid : Nat) (s : StudentCreate) :
    ∀ (l : List Student) (r : Student),
      l.find? (fun q => q.id == sid) = some r →
      (setFirst sid s l).find? (fun q => q.id == sid) = some (replaceFields s r) := by
  intro l
  induction l with
  | nil => intro r h; simp [List.find?] at h
  | cons a l ih =>
      intro r h
      by_cases ha : a.id = sid
      · rw [List.find?_cons_of_pos _ (by simp [ha])] at h
        cases h
        rw [show setFirst sid s (a :: l) = replaceFields s a :: l by simp [setFirst, ha]]
        exact List.find?_cons_of_pos _ (by simp [replaceFields_id, ha])
      · rw [List.find?_cons_of_neg _ (by simp [ha])] at h
        rw [show setFirst sid s (a :: l) = a :: setFirst sid s l by simp [setFirst, ha]]
        rw [List.find?_cons_of_neg _ (by simp [ha])]
        exact ih r h

/-- When ids are unique, removing the first row with a matching id leaves no
row with that id. -/
theorem find?_eraseFirst (sid : Nat) :
    ∀ l : List Student, (l.map Student.id).Nodup →
      (eraseFirst sid l).find? (fun q => q.id == sid) = none := by
  intro l
  induction l with
  | nil => intro _; rfl
  | cons a l ih =>
      intro hnd
      rw [List.map_cons, List.nodup_cons] at hnd
      by_cases ha : a.id = sid
      · rw [show eraseFirst sid (a :: l) = l by simp [eraseFirst, ha]]
        apply List.find?_eq_none.mpr
        intro x hx
        simp only [beq_iff_eq]
        intro hxid
        exact hnd.1 (ha ▸ hxid ▸ List.mem_map_of_mem Student.id hx)
      · rw [show eraseFirst sid (a :: l) = a :: eraseFirst sid l by simp [eraseFirst, ha]]
        rw [List.find?_cons_of_neg _ (by simp [ha])]
        exact ih hnd.2

/-- Rows whose id differs from the targeted one are fixed points of the
row-replacement map. -/
theorem map_replace_of_forall_ne (sid : Nat) (s : StudentCreate) :
    ∀ l : List Student, (∀ q ∈ l, q.id ≠ sid) →
      l.map (fun q => if q.id = sid then replaceFields s q else q) = l := by
  intro l
  induction l with
  | nil => intro _; rfl
  | cons a l ih =>
      intro h
      simp only [List.map_cons, if_neg (h a (List.mem_cons_self a l))]
      rw [ih (fun q hq => h q (List.mem_cons_of_mem a hq))]

/-- When ids are unique, replacing the first matching row is the same as
replacing every matching row. -/
theorem setFirst_eq_map (sid : Nat) (s : StudentCreate) :
    ∀ l : List Student, (l.map Student.id).Nodup →
      setFirst sid s l = l.map (fun q => if q.id = sid then replaceFields s q else q) := by
  intro l
  induction l with
  | nil => intro _; rfl
  | cons a l ih =>
      intro hnd
      rw [List.map_cons, List.nodup_cons] at hnd
      by_cases ha : a.id = sid
      · rw [show setFirst sid s (a :: l) = replaceFields s a :: l by simp [setFirst, ha]]
        rw [List.map_cons, if_pos ha]
        rw [map_replace_of_forall_ne sid s l
          (fun q hq hqe => hnd.1 (ha ▸ hqe ▸ List.mem_map_of_mem Student.id hq))]
      · rw [show setFirst sid s (a :: l) = a :: setFirst sid s l by simp [setFirst, ha]]
        rw [List.map_cons, if_neg ha, ih hnd.2]

/-- Replacing the first matching row twice with the same body is the same as
doing it once. -/
theorem setFirst_idem (sid : Nat) (s : StudentCreate) :
    ∀ l : List Student, setFirst sid s (setFirst sid s l) = setFirst sid s l := by
  intro l
  induction l with
  | nil => rfl
  | cons a l ih =>
      by_cases ha : a.id = sid
      · rw [show setFirst sid s (a :: l) = replaceFields s a :: l by simp [setFirst, ha]]
        rw [show setFirst sid s (replaceFields s a :: l) = replaceFields s (replaceFields s a) :: l
            by simp [setFirst, replaceFields_id, ha]]
        rw [replaceFields_idem]
      · rw [show setFirst sid s (a :: l) = a :: setFirst sid s l by simp [setFirst, ha]]
        rw [show setFirst sid s (a :: setFirst sid s l) = a :: setFirst sid s (setFirst sid s l)
            by simp [setFirst, ha]]
        rw [ih]

/-- Replacing the fields of the row with the targeted id cannot create an
email collision with a different row that was not already there. -/
theorem any_setFirst_false (sid : Nat) (b : StudentCreate) :
    ∀ l : List Student,
      l.any (fun q => q.id != sid && q.email == b.email) = false →
      (setFirst sid b l).any (fun q => q.id != sid && q.email == b.email) = false := by
  intro l
  induction l with
  | nil => intro _; rfl
  | cons a l ih =>
      intro h
      rw [List.any_cons, Bool.or_eq_false_iff] at h
      by_cases ha : a.id = sid
      · rw [show setFirst sid b (a :: l) = replaceFields b a :: l by simp [setFirst, ha]]
        rw [List.any_cons, Bool.or_eq_false_iff]
        refine ⟨?_, h.2⟩
        simp [replaceFields_id, ha]
      · rw [show setFirst sid b (a :: l) = a :: setFirst sid b l by simp [setFirst, ha]]
        rw [List.any_cons, Bool.or_eq_false_iff]
        exact ⟨h.1, ih h.2⟩

end StudentApp

namespace StudentApp

example : (postStudents aliceBody DB.empty).1 = .ok aliceRow := by decide

example : isValidEmail "not-an-email" = false := by decide

example : get_student 1 (postStudents aliceBody DB.empty).2 = .ok aliceRow := by decide

/-- Second sample request body, with an email distinct from `aliceBody`'s. -/
def bobBody : StudentCreate :=
  { name := "Bob", age := 21, address := "2 Oak Ave", email := "bob@example.com" }

/-- One-row database holding the sample row. -/
def dbAlice : DB := { rows := [aliceRow], nextId := 2 }

/-- C2: for every valid input record (email syntactically valid and not
already in use), create followed by get on the assigned id returns a record
equal to the created one, with the same id, name, age, address, and email. -/
theorem C2_create_then_get (db : DB) (s : StudentCreate)
    (hwf : db.wf) (hv : isValidEmail s.email = true)
    (hfree : ∀ r ∈ db.rows, r.email ≠ s.email) :
    ∃ created : Student,
      (postStudents s db).1 = .ok created ∧
      created.id = db.nextId ∧ created.name = s.name ∧ created.age = s.age ∧
      created.address = s.address ∧ created.email = s.email ∧
      get_student created.id (postStudents s db).2 = .ok created := by
  have hany : db.rows.any (fun r => r.email == s.email) = false := by
    rw [List.any_eq_false]
    intro r hr
    simp only [beq_iff_eq]
    exact hfree r hr
  refine ⟨{ id := db.nextId, name := s.name, age := s.age, address := s.address,
            email := s.email }, ?_, rfl, rfl, rfl, rfl, rfl, ?_⟩
  · simp [postStudents, hv, create_student, hany]
  · simp only [postStudents, hv, if_true, create_student, hany, Bool.false_eq_true,
      if_false, get_student]
    rw [List.find?_append]
    have h1 : db.rows.find? (fun q => q.id == db.nextId) = none := by
      rw [List.find?_eq_none]
      intro x hx
      simp only [beq_iff_eq]
      exact Nat.ne_of_lt (hwf.2 x hx)
    rw [h1]
    simp [List.find?]

/-- C3: for every existing id and valid replacement body whose email does
not collide with a different row, update followed by get returns exactly the
replacement fields plus the unchanged id. -/
theorem C3_update_then_get (db : DB) (sid : Nat) (b : StudentCreate) (r : Student)
    (hv : isValidEmail b.email = true)
    (hfind : db.rows.find? (fun q => q.id == sid) = some r)
    (hnc : db.rows.any (fun q => q.id != sid && q.email == b.email) = false) :
    (putStudent sid b db).1 =
      .ok { id := sid, name := b.name, age := b.age, address := b.address,
            email := b.email } ∧
    get_student sid (putStudent sid b db).2 =
      .ok { id := sid, name := b.name, age := b.age, address := b.address,
            email := b.email } := by
  have hrid : r.id = sid := by
    have h := List.find?_some hfind
    simpa [beq_iff_eq] using h
  have hrep : replaceFields b r =
      { id := sid, name := b.name, age := b.age, address := b.address,
        email := b.email } := by
    simp [replaceFields, hrid]
  constructor
  · simp [putStudent, hv, update_student, hfind, hnc, hrep]
  · simp only [putStudent, hv, if_true, update_student, hfind, hnc,
      Bool.false_eq_true, if_false, get_student]
    rw [find?_setFirst sid b db.rows r hfind, hrep]

/-- C4: get, update (with a valid body), and delete on an id absent from
storage all answer the 404 response with detail message Student not found,
in every storage state, leaving the state unchanged. -/
theorem C4_absent_id (db : DB) (sid : Nat) (b : StudentCreate)
    (hv : isValidEmail b.email = true)
    (habs : ∀ r ∈ db.rows, r.id ≠ sid) :
    get_student sid db = .httpError 404 "Student not found" ∧
    (get_student sid db).status = 404 ∧
    putStudent sid b db = (.httpError 404 "Student not found", db) ∧
    delete_student sid db = (.httpError 404 "Student not found", db) := by
  have hnone : db.rows.find? (fun q => q.id == sid) = none := by
    rw [List.find?_eq_none]
    intro x hx
    simp only [beq_iff_eq]
    exact habs x hx
  refine ⟨?_, ?_, ?_, ?_⟩ <;>
    simp [get_student, putStudent, hv, update_student, delete_student, hnone,
      Result.status]

/-- C5: on a well-formed database, a successful delete followed by get on
the same id answers 404: the row is removed from storage. -/
theorem C5_delete_then_get (db : DB) (sid : Nat) (r : Student)
    (hwf : db.wf)
    (hfind : db.rows.find? (fun q => q.id == sid) = some r) :
    (delete_student sid db).1.status = 200 ∧
    get_student sid (delete_student sid db).2 =
      .httpError 404 "Student not found" := by
  constructor
  · simp [delete_student, hfind, Result.status]
  · simp only [delete_student, hfind, get_student]
    rw [find?_eraseFirst sid db.rows hwf.1]

/-- C6: a create whose email is not syntactically valid is answered 422 by
body validation, before the handler runs, and the stored state is unchanged. -/
theorem C6_invalid_email_rejected (db : DB) (b : StudentCreate)
    (hv : isValidEmail b.email = false) :
    postStudents b db = (.validationError, db) ∧
    (postStudents b db).1.status = 422 ∧
    (postStudents b db).2 = db := by
  refine ⟨?_, ?_, ?_⟩ <;> simp [postStudents, hv, Result.status]

/-- Request body with a syntactically invalid email, for the C6 witness. -/
def badEmailBody : StudentCreate :=
  { name := "Carol", age := 19, address := "3 Pine Rd", email := "not-an-email" }

/-- Witness for C2 at a concrete input: the spec's worked example. -/
theorem C2_create_then_get_witness :
    ∃ created : Student,
      (postStudents aliceBody DB.empty).1 = .ok created ∧
      created.id = DB.empty.nextId ∧ created.name = aliceBody.name ∧
      created.age = aliceBody.age ∧ created.address = aliceBody.address ∧
      created.email = aliceBody.email ∧
      get_student created.id (postStudents aliceBody DB.empty).2 = .ok created :=
  C2_create_then_get DB.empty aliceBody (by decide) (by decide) (by decide)

/-- Witness for C3 at a concrete input. -/
theorem C3_update_then_get_witness :
    (putStudent 1 bobBody dbAlice).1 =
      .ok { id := 1, name := bobBody.name, age := bobBody.age,
            address := bobBody.address, email := bobBody.email } ∧
    get_student 1 (putStudent 1 bobBody dbAlice).2 =
      .ok { id := 1, name := bobBody.name, age := bobBody.age,
            address := bobBody.address, email := bobBody.email } :=
  C3_update_then_get dbAlice 1 bobBody aliceRow (by decide) (by decide) (by decide)

/-- Witness for C4 at a concrete input: id 5 is absent from the one-row
database. -/
theorem C4_absent_id_witness :
    get_student 5 dbAlice = .httpError 404 "Student not found" ∧
    (get_student 5 dbAlice).status = 404 ∧
    putStudent 5 bobBody dbAlice = (.httpError 404 "Student not found", dbAlice) ∧
    delete_student 5 dbAlice = (.httpError 404 "Student not found", dbAlice) :=
  C4_absent_id dbAlice 5 bobBody (by decide) (by decide)

/-- Witness for C5 at a concrete input. -/
theorem C5_delete_then_get_witness :
    (delete_student 1 dbAlice).1.status = 200 ∧
    get_student 1 (delete_student 1 dbAlice).2 =
      .httpError 404 "Student not found" :=
  C5_delete_then_get dbAlice 1 aliceRow (by decide) (by decide)

/-- Witness for C6 at the spec's own example input. -/
theorem C6_invalid_email_rejected_witness :
    postStudents badEmailBody DB.empty = (.validationError, DB.empty) ∧
    (postStudents badEmailBody DB.empty).1.status = 422 ∧
    (postStudents badEmailBody DB.empty).2 = DB.empty :=
  C6_invalid_email_rejected DB.empty badEmailBody (by decide)

/-- Third sample body, email distinct from the other samples. -/
def carolBody : StudentCreate :=
  { name := "Carol", age := 19, address := "3 Pine Rd", email := "carol@example.com" }

/-- Second sample row, id 2. -/
def bobRow : Student :=
  { id := 2, name := "Bob", age := 21, address := "2 Oak Ave",
    email := "bob@example.com" }

/-- Two-row database holding the first two sample rows. -/
def dbAliceBob : DB := { rows := [aliceRow, bobRow], nextId := 3 }

/-- C1 counterexample: creating the same record twice into the fresh table
makes the second create fail with `ConstraintViolation`, but the failure
reaches the HTTP caller as status 500 — the `IntegrityError` from
`db.commit()` is caught by no handler in `main.py`, so the framework answers
an internal server error, not the 4xx the claim requires. -/
theorem C1_counterexample :
    (postStudents aliceBody DB.empty).1.status = 200 ∧
    (postStudents aliceBody (postStudents aliceBody DB.empty).2).1 =
      .constraintViolation ∧
    (postStudents aliceBody (postStudents aliceBody DB.empty).2).1.status = 500 ∧
    ¬(400 ≤ (postStudents aliceBody (postStudents aliceBody DB.empty).2).1.status ∧
      (postStudents aliceBody (postStudents aliceBody DB.empty).2).1.status < 500) := by
  decide

/-- C1 amended: a create or update whose email collides with a different
record fails with `ConstraintViolation` and leaves storage unchanged, and of
two creates carrying the same email exactly the first succeeds; the failure
is surfaced to the HTTP caller as status 500 (an unhandled `IntegrityError`),
not as a 4xx. -/
theorem C1_duplicate_email (db : DB) (s t b : StudentCreate) (sid : Nat) (r : Student)
    (hv : isValidEmail s.email = true) (hte : t.email = s.email)
    (hfree : ∀ q ∈ db.rows, q.email ≠ s.email)
    (hvb : isValidEmail b.email = true)
    (hfind : db.rows.find? (fun q => q.id == sid) = some r)
    (hcol : db.rows.any (fun q => q.id != sid && q.email == b.email) = true) :
    ((postStudents s db).1.status = 200 ∧
     (postStudents t (postStudents s db).2).1 = .constraintViolation ∧
     (postStudents t (postStudents s db).2).1.status = 500 ∧
     (postStudents t (postStudents s db).2).2 = (postStudents s db).2) ∧
    (putStudent sid b db = (.constraintViolation, db) ∧
     (putStudent sid b db).1.status = 500) := by
  have hany : db.rows.any (fun q => q.email == s.email) = false := by
    rw [List.any_eq_false]
    intro q hq
    simp only [beq_iff_eq]
    exact hfree q hq
  have hpost1 : postStudents s db =
      (.ok { id := db.nextId, name := s.name, age := s.age, address := s.address,
             email := s.email },
       { rows := db.rows ++ ([{ id := db.nextId, name := s.name, age := s.age,
                                address := s.address, email := s.email }] :
                             List Student),
         nextId := db.nextId + 1 }) := by
    simp only [postStudents]
    rw [if_pos hv]
    simp only [create_student]
    rw [hany]
    simp
  have hvt : isValidEmail t.email = true := by rw [hte]; exact hv
  have hany2 :
      (db.rows ++ ([{ id := db.nextId, name := s.name, age := s.age,
                      address := s.address, email := s.email }] :
                   List Student)).any
        (fun q => q.email == t.email) = true := by
    rw [List.any_append]
    simp [hte]
  have hpost2 : postStudents t (postStudents s db).2 =
      (.constraintViolation, (postStudents s db).2) := by
    rw [hpost1]
    simp only [postStudents]
    rw [if_pos hvt]
    simp only [create_student]
    rw [hany2]
    simp
  have hput : putStudent sid b db = (.constraintViolation, db) := by
    simp only [putStudent]
    rw [if_pos hvb]
    simp only [update_student, hfind]
    rw [hcol]
    simp
  refine ⟨⟨?_, ?_, ?_, ?_⟩, hput, ?_⟩
  · rw [hpost1]; rfl
  · rw [hpost2]
  · rw [hpost2]; rfl
  · rw [hpost2]
  · rw [hput]; rfl

/-- Witness for the amended C1 at concrete inputs: a duplicated create of a
third record, and an update of row 1 onto row 2's email, over the two-row
database. -/
theorem C1_duplicate_email_witness :
    ((postStudents carolBody dbAliceBob).1.status = 200 ∧
     (postStudents carolBody (postStudents carolBody dbAliceBob).2).1 =
       .constraintViolation ∧
     (postStudents carolBody (postStudents carolBody dbAliceBob).2).1.status = 500 ∧
     (postStudents carolBody (postStudents carolBody dbAliceBob).2).2 =
       (postStudents carolBody dbAliceBob).2) ∧
    (putStudent 1 bobBody dbAliceBob = (.constraintViolation, dbAliceBob) ∧
     (putStudent 1 bobBody dbAliceBob).1.status = 500) :=
  C1_duplicate_email dbAliceBob carolBody carolBody bobBody 1 aliceRow
    (by decide) rfl (by decide) (by decide) (by decide) (by decide)

/-- C7 counterexample: a create whose name and address are both the empty
string is not rejected — pydantic's `name: str` and `address: str` accept
the empty string and MySQL's `NOT NULL` does not exclude it — so a record
with empty name and address is persisted. -/
theorem C7_counterexample :
    (postStudents { name := "", age := 20, address := "",
                    email := "empty@example.com" } DB.empty).1 =
      .ok { id := 1, name := "", age := 20, address := "",
            email := "empty@example.com" } ∧
    ({ id := 1, name := "", age := 20, address := "",
       email := "empty@example.com" } : Student) ∈
      (postStudents { name := "", age := 20, address := "",
                      email := "empty@example.com" } DB.empty).2.rows := by
  decide

/-- C7 amended: name and address are required text fields, but the empty
string is accepted for both — validation constrains only the email's syntax,
so a create whose name and address are empty succeeds whenever its email is
valid and unused, and the stored record keeps the empty name and address; no
non-emptiness invariant holds. -/
theorem C7_empty_name_address_accepted (db : DB) (b : StudentCreate)
    (hv : isValidEmail b.email = true)
    (hfree : ∀ r ∈ db.rows, r.email ≠ b.email) :
    ∃ created : Student,
      (postStudents { name := "", age := b.age, address := "", email := b.email }
        db).1 = .ok created ∧
      created.name = "" ∧ created.address = "" ∧
      created ∈ (postStudents { name := "", age := b.age, address := "",
                                email := b.email } db).2.rows := by
  have hany : db.rows.any (fun r => r.email == b.email) = false := by
    rw [List.any_eq_false]
    intro q hq
    simp only [beq_iff_eq]
    exact hfree q hq
  refine ⟨{ id := db.nextId, name := "", age := b.age, address := "",
            email := b.email }, ?_, rfl, rfl, ?_⟩
  · simp [postStudents, hv, create_student, hany]
  · simp only [postStudents, hv, if_true, create_student, hany,
      Bool.false_eq_true, if_false]
    exact List.mem_append_right _ (List.mem_singleton.mpr rfl)

/-- Witness for the amended C7 at a concrete input. -/
theorem C7_empty_name_address_accepted_witness :
    ∃ created : Student,
      (postStudents { name := "", age := aliceBody.age, address := "",
                      email := aliceBody.email } DB.empty).1 = .ok created ∧
      created.name = "" ∧ created.address = "" ∧
      created ∈ (postStudents { name := "", age := aliceBody.age, address := "",
                                email := aliceBody.email } DB.empty).2.rows :=
  C7_empty_name_address_accepted DB.empty aliceBody (by decide) (by decide)

/-- C8: on a well-formed database, a successful update of an id changes only
the name, age, address, and email of the row with that id: the returned
record keeps the requested id, the id counter is untouched, the new row list
is the old one with exactly the targeted row's data fields overwritten, and
every row with a different id survives unchanged. -/
theorem C8_update_frame (db db' : DB) (sid : Nat) (b : StudentCreate) (out : Student)
    (hwf : db.wf) (h : putStudent sid b db = (.ok out, db')) :
    out.id = sid ∧ db'.nextId = db.nextId ∧
    db'.rows = db.rows.map (fun q => if q.id = sid then replaceFields b q else q) ∧
    ∀ q ∈ db.rows, q.id ≠ sid → q ∈ db'.rows := by
  cases hv : isValidEmail b.email with
  | false =>
      rw [putStudent, hv] at h
      simp at h
  | true =>
      rw [putStudent, hv] at h
      simp only [if_true] at h
      cases hfind : db.rows.find? (fun q => q.id == sid) with
      | none =>
          rw [update_student, hfind] at h
          simp at h
      | some r =>
          rw [update_student, hfind] at h
          cases hcol : db.rows.any (fun q => q.id != sid && q.email == b.email) with
          | true =>
              rw [hcol] at h
              simp at h
          | false =>
              rw [hcol] at h
              simp only [Bool.false_eq_true, if_false, Prod.mk.injEq,
                Result.ok.injEq] at h
              obtain ⟨hout, hdb⟩ := h
              have hrid : r.id = sid := by
                have hp := List.find?_some hfind
                simpa [beq_iff_eq] using hp
              refine ⟨?_, ?_, ?_, ?_⟩
              · rw [← hout, replaceFields_id, hrid]
              · rw [← hdb]
              · rw [← hdb]
                exact setFirst_eq_map sid b db.rows hwf.1
              · intro q hq hne
                rw [← hdb]
                have hmap := setFirst_eq_map sid b db.rows hwf.1
                show q ∈ setFirst sid b db.rows
                rw [hmap]
                exact List.mem_map.mpr ⟨q, hq, if_neg hne⟩

/-- Row 1 after being overwritten with `carolBody`'s fields. -/
def carolRow1 : Student :=
  { id := 1, name := "Carol", age := 19, address := "3 Pine Rd",
    email := "carol@example.com" }

/-- The two-row database after row 1 is overwritten with `carolBody`. -/
def dbCarolBob : DB := { rows := [carolRow1, bobRow], nextId := 3 }

/-- Witness for C8 at a concrete input: updating row 1 of the two-row
database with `carolBody` leaves row 2 untouched. -/
theorem C8_update_frame_witness :
    carolRow1.id = 1 ∧ dbCarolBob.nextId = dbAliceBob.nextId ∧
    dbCarolBob.rows =
      dbAliceBob.rows.map (fun q => if q.id = 1 then replaceFields carolBody q else q) ∧
    ∀ q ∈ dbAliceBob.rows, q.id ≠ 1 → q ∈ dbCarolBob.rows :=
  C8_update_frame dbAliceBob dbCarolBob 1 carolBody carolRow1
    (by decide) (by decide)

/-- C9: a successful delete of an existing id is answered 200, with the
confirmation message interpolating the requested id. -/
theorem C9_delete_message (db : DB) (sid : Nat) (r : Student)
    (hfind : db.rows.find? (fun q => q.id == sid) = some r) :
    (delete_student sid db).1 =
      .ok ("Student with ID " ++ toString sid ++ " deleted") ∧
    (delete_student sid db).1.status = 200 := by
  constructor <;> simp [delete_student, hfind, Result.status]

/-- Witness for C9 at a concrete input. -/
theorem C9_delete_message_witness :
    (delete_student 1 dbAlice).1 =
      .ok ("Student with ID " ++ toString 1 ++ " deleted") ∧
    (delete_student 1 dbAlice).1.status = 200 :=
  C9_delete_message dbAlice 1 aliceRow (by decide)

/-- C10: update is idempotent — for an existing id and a valid body whose
email does not collide with a different row, applying the update twice gives
the same response and the same storage state as applying it once. -/
theorem C10_update_idempotent (db : DB) (sid : Nat) (b : StudentCreate) (r : Student)
    (hv : isValidEmail b.email = true)
    (hfind : db.rows.find? (fun q => q.id == sid) = some r)
    (hnc : db.rows.any (fun q => q.id != sid && q.email == b.email) = false) :
    putStudent sid b (putStudent sid b db).2 = putStudent sid b db := by
  have h1 : putStudent sid b db =
      (.ok (replaceFields b r), { db with rows := setFirst sid b db.rows }) := by
    simp only [putStudent]
    rw [if_pos hv]
    simp only [update_student, hfind]
    rw [hnc]
    simp
  rw [h1]
  have hfind2 : (setFirst sid b db.rows).find? (fun q => q.id == sid)
      = some (replaceFields b r) := find?_setFirst sid b db.rows r hfind
  have hnc2 : (setFirst sid b db.rows).any
      (fun q => q.id != sid && q.email == b.email) = false :=
    any_setFirst_false sid b db.rows hnc
  simp only [putStudent]
  rw [if_pos hv]
  simp only [update_student, hfind2]
  rw [hnc2]
  simp [replaceFields_idem, setFirst_idem]

/-- Witness for C10 at a concrete input. -/
theorem C10_update_idempotent_witness :
    putStudent 1 bobBody (putStudent 1 bobBody dbAlice).2 =
      putStudent 1 bobBody dbAlice :=
  C10_update_idempotent dbAlice 1 bobBody aliceRow (by decide) (by decide) (by decide)

end StudentApp
